import Mathlib

/-!
Shallow embedding of the youtube-sync relay server and client
synchronization code.

Relay side (src/server/server.js and src/unnamed/part_000, whose WebSocket
handling is identical): the `clients` set, the `ws.on("message")` handler
with its LOAD_VIDEO and PLAY/PAUSE/SEEK branches, and the connect /
close / error registry updates.

Client side (client sources embedded in src/build-and-test.sh): the
YouTubePlayer component's `syncPlayer` (latency compensation and seek
thresholding), the App component's `handleVideoIdSync` and periodic-sync
`useEffect`, and the `useWebSocketSync` hook (echo-suppression flag,
reconnect scheduling, `sendSyncEvent`, `disconnect`).

Conventions: JS object identity of a WebSocket handle is modelled by a
`Nat` id; absent (`undefined`/`null`) JSON fields are `Option.none`;
JS numbers holding seconds are modelled as exact rationals; wall-clock
milliseconds as `Nat`.  Timer callbacks (`setTimeout` / `setInterval`)
are modelled as explicit deadlines plus events that fire them.
-/

namespace YoutubeSync

/-- WebSocket transport readyState of one relay-side connection. -/
inductive ReadyState where
  | CONNECTING
  | OPEN
  | CLOSING
  | CLOSED
deriving DecidableEq

/-- One relay-side connection handle: `id` models the JS object identity of
the `ws` object stored in the server's `clients` set, `readyState` its
transport state at broadcast time. -/
structure Conn where
  id : Nat
  readyState : ReadyState
deriving DecidableEq

/-- The fields of a parsed inbound JSON message that the relay handler reads
(`data.type`, `data.videoId`, `data.action`, `data.time`, `data.timestamp`);
`none` models an absent field. -/
structure WireData where
  type? : Option String
  videoId? : Option String
  action? : Option String
  time? : Option ℚ
  timestamp? : Option Int
deriving DecidableEq

/-- A JSON message the relay sends to a client, by shape:
the one-time welcome, the LOAD_VIDEO broadcast `{type, videoId, timestamp}`,
and the playback broadcast `{action, time, timestamp}`.  In both broadcast
shapes `timestamp` is the relay's own `Date.now()`. -/
inductive ServerMsg where
  | CONNECTED (message : String)
  | LOAD_VIDEO (videoId : Option String) (timestamp : Nat)
  | PLAYBACK (action : String) (time : Option ℚ) (timestamp : Nat)
deriving DecidableEq

/-- The connections a broadcast loop sends to: every registered client other
than the sender whose readyState is OPEN (`client !== ws &&
client.readyState === WebSocket.OPEN`). -/
def broadcastTargets (clients : List Conn) (sender : Nat) : List Conn :=
  clients.filter (fun c => decide (c.id ≠ sender ∧ c.readyState = ReadyState.OPEN))

/-- Body of the relay's `ws.on("message")` handler after a successful
`JSON.parse`: the LOAD_VIDEO branch broadcasts `{type: "LOAD_VIDEO",
videoId: data.videoId, timestamp: Date.now()}` and returns; otherwise, if
`data.action` is one of PLAY/PAUSE/SEEK, it broadcasts `{action: data.action,
time: data.time, timestamp: Date.now()}`; any other shape falls through with
no sends.  Returns the list of (recipient id, message) sends. -/
def handleData (clients : List Conn) (sender : Nat) (data : WireData) (now : Nat) :
    List (Nat × ServerMsg) :=
  if data.type? = some "LOAD_VIDEO" then
    (broadcastTargets clients sender).map
      (fun c => (c.id, ServerMsg.LOAD_VIDEO data.videoId? now))
  else
    match data.action? with
    | some a =>
      if a = "PLAY" ∨ a = "PAUSE" ∨ a = "SEEK" then
        (broadcastTargets clients sender).map
          (fun c => (c.id, ServerMsg.PLAYBACK a data.time? now))
      else []
    | none => []

/-- The relay's `ws.on("message")` handler including the `try/catch`:
`none` models a `JSON.parse` failure, which is caught (logged, no sends). -/
def handleMessage (clients : List Conn) (sender : Nat) (parsed : Option WireData)
    (now : Nat) : List (Nat × ServerMsg) :=
  match parsed with
  | none => []
  | some data => handleData clients sender data now

/-- Whether the relay's message handler emits an error log: the only
`console.error` in the handler is the `JSON.parse` catch block. -/
def parseErrorLogged (parsed : Option WireData) : Bool := parsed.isNone

/-- Events driving the relay: a new transport connection, an inbound
message from a registered connection, and transport close / error. -/
inductive RelayEvent where
  | CONNECT (id : Nat)
  | MESSAGE (sender : Nat) (parsed : Option WireData) (now : Nat)
  | CLOSE (id : Nat)
  | ERROR (id : Nat)
deriving DecidableEq

/-- One relay event handled: returns the updated `clients` registry and the
list of sends.  CONNECT adds the connection and sends the welcome message;
MESSAGE leaves the registry untouched and broadcasts via `handleMessage`;
CLOSE and ERROR remove the connection (`clients.delete(ws)`). -/
def relayStep (clients : List Conn) : RelayEvent → List Conn × List (Nat × ServerMsg)
  | RelayEvent.CONNECT i =>
      (clients ++ [⟨i, ReadyState.OPEN⟩],
        [(i, ServerMsg.CONNECTED "Connected to YouTube sync server")])
  | RelayEvent.MESSAGE sender parsed now => (clients, handleMessage clients sender parsed now)
  | RelayEvent.CLOSE i => (clients.filter (fun c => decide (c.id ≠ i)), [])
  | RelayEvent.ERROR i => (clients.filter (fun c => decide (c.id ≠ i)), [])

/-- Number of sends in a broadcast result addressed to connection id `i`. -/
def countSendsTo (sends : List (Nat × ServerMsg)) (i : Nat) : Nat :=
  sends.countP (fun m => decide (m.1 = i))

/-- Capability calls the client issues to the YouTube iframe player. -/
inductive BackendCmd where
  | seekTo (t : ℚ)
  | playVideo
  | pauseVideo
  | loadVideoById (videoId : String)
deriving DecidableEq

/-- The slice of the YouTubePlayer component state that `syncPlayer` and the
periodic-sync tick read: whether `playerRef.current` is non-null, the
`isReady` flag, and the backend's `getCurrentTime()` / `getPlayerState()`
answers (YT states: -1 unstarted, 0 ended, 1 playing, 2 paused, 3 buffering,
5 cued). -/
structure PlayerModel where
  hasPlayer : Bool
  isReady : Bool
  currentTime : ℚ
  playerState : Int
deriving DecidableEq

/-- Latency compensation in `syncPlayer`: when a (truthy) `serverTimestamp`
is given, `compensatedTime = time + (Date.now() - serverTimestamp) / 1000`
(milliseconds converted to seconds); otherwise the raw `time` is used.
`some 0` is falsy in JS and therefore also uncompensated. -/
def compensatedTime (time : ℚ) (serverTimestamp : Option Nat) (now : Nat) : ℚ :=
  match serverTimestamp with
  | some ts => if ts = 0 then time else time + (((now : ℚ) - (ts : ℚ)) / 1000)
  | none => time

/-- Seek threshold in `syncPlayer`:
`const seekThreshold = action === "SEEK" ? 0.4 : 0.1`. -/
def seekThresholdFor (action : String) : ℚ :=
  if action = "SEEK" then 0.4 else 0.1

/-- The play/pause branch of `syncPlayer`: PLAY calls `playVideo()`, PAUSE
calls `pauseVideo()`, any other action issues no further backend call. -/
def actionCmds (action : String) : List BackendCmd :=
  if action = "PLAY" then [BackendCmd.playVideo]
  else if action = "PAUSE" then [BackendCmd.pauseVideo]
  else []

/-- Everything one `syncPlayer` call does: the backend calls it issues in
order, whether it warned and returned early because the player was missing
or not ready, whether it set the `isSyncingRef` flag, and the deadline of
the `setTimeout` that clears that flag again (150 ms). -/
structure SyncOutcome where
  cmds : List BackendCmd
  warnedNotReady : Bool
  setSyncFlag : Bool
  clearSyncFlagAt : Option Nat
deriving DecidableEq

/-- The YouTubePlayer component's `syncPlayer(action, time, serverTimestamp)`:
early-return (warn, no backend call) when `playerRef.current` is null or the
player is not ready; otherwise compute the compensated time, seek exactly
when the absolute difference to the backend position strictly exceeds the
per-action threshold, then run the play/pause branch, and schedule the
150 ms reset of the sync flag. -/
def syncPlayer (pl : PlayerModel) (action : String) (time : ℚ)
    (serverTimestamp : Option Nat) (now : Nat) : SyncOutcome :=
  if pl.hasPlayer = false then
    { cmds := [], warnedNotReady := true, setSyncFlag := false, clearSyncFlagAt := none }
  else if pl.isReady = false then
    { cmds := [], warnedNotReady := true, setSyncFlag := false, clearSyncFlagAt := none }
  else
    { cmds :=
        (if seekThresholdFor action <
            |compensatedTime time serverTimestamp now - pl.currentTime| then
          [BackendCmd.seekTo (compensatedTime time serverTimestamp now)]
        else []) ++ actionCmds action,
      warnedNotReady := false,
      setSyncFlag := true,
      clearSyncFlagAt := some (now + 150) }

/-- The slice of the App component state the synchronization logic reads:
`role` (null / "host" / "client"), the connection flag, the local playing
flag, and the loaded video id (empty string when none). -/
structure AppState where
  role : Option String
  isConnected : Bool
  isPlaying : Bool
  videoId : String
  videoIdInput : String
deriving DecidableEq

/-- The App component's `handleVideoIdSync(videoId)` callback, fired on a
received LOAD_VIDEO message: a falsy (absent or empty) id is warned about
and ignored; otherwise it sets `videoId` and `videoIdInput` and resets
`isPlaying` to false.  Returns the new state and whether it warned. -/
def handleVideoIdSync (app : AppState) (videoId? : Option String) : AppState × Bool :=
  match videoId? with
  | none => (app, true)
  | some v =>
    if v = "" then (app, true)
    else ({ app with videoId := v, videoIdInput := v, isPlaying := false }, false)

/-- The YouTubePlayer `useEffect` on `[videoId, isReady]`: when it runs with
a truthy `videoId`, it calls `loadVideoById(videoId)` if the player exists
and is ready, and only logs otherwise. -/
def videoIdLoadEffect (videoId : String) (pl : PlayerModel) : List BackendCmd :=
  if videoId ≠ "" then
    if pl.isReady && pl.hasPlayer then [BackendCmd.loadVideoById videoId] else []
  else []

/-- The guard of the App component's periodic-sync `useEffect`:
`role === "host" && isConnected && isPlaying && videoId &&
playerRef.current?.isReady`. -/
def periodicSyncCond (app : AppState) (pl : PlayerModel) : Bool :=
  decide (app.role = some "host") && app.isConnected && app.isPlaying &&
    decide (app.videoId ≠ "") && (pl.hasPlayer && pl.isReady)

/-- One run of the periodic-sync `useEffect` (it re-runs whenever one of its
dependencies changes, and its cleanup as well as its else-branch always clear
the previous interval first): the list of live interval timers afterwards,
each recorded by its period in ms.  When the guard holds a single 3000 ms
interval is installed; otherwise no timer survives. -/
def periodicSyncEffectRun (app : AppState) (pl : PlayerModel)
    ( _prev : List Nat) : List Nat :=
  if periodicSyncCond app pl then [3000] else []

/-- Body of the 3-second interval callback: if the player exists and is
ready, read the current time and player state and call
`sendSyncEvent("SEEK", currentTime)` only when the state is 1 (PLAYING).
Returns the `sendSyncEvent` calls made. -/
def periodicTick (pl : PlayerModel) : List (String × ℚ) :=
  if pl.hasPlayer && pl.isReady then
    if pl.playerState = 1 then [("SEEK", pl.currentTime)] else []
  else []

/-- Configuration of one `useWebSocketSync` instance: the endpoint role and
the configured host IP (empty string when blank). -/
structure HookCfg where
  role : Option String
  hostIp : String
deriving DecidableEq

/-- Fields of a parsed inbound message that the hook's `ws.onmessage`
handler reads. -/
structure ClientMsg where
  type? : Option String
  videoId? : Option String
  action? : Option String
  time? : Option ℚ
  timestamp? : Option Nat
deriving DecidableEq

/-- State of one `useWebSocketSync` instance: the `connectionStatus` state
variable, whether a WebSocket object with registered handlers still exists
(its `onclose` will still fire after a manual `close()`), whether
`wsRef.current` is an OPEN socket, the `isApplyingRemoteChangeRef` flag, and
the deadlines of the pending flag-clear timeout (100 ms) and the pending
reconnect timeout (3000 ms), `none` when not scheduled. -/
structure HookState where
  connectionStatus : String
  socketExists : Bool
  wsOpen : Bool
  isApplyingRemoteChange : Bool
  applyClearAt : Option Nat
  reconnectAt : Option Nat
deriving DecidableEq

/-- Observable outputs of the hook: invoking the `onSyncEvent` callback,
invoking the `onVideoIdSync` callback, a `ws.send` of a sync event, and a
`connect()` attempt made by the reconnect timer. -/
inductive HookOut where
  | applySyncCb (action : String) (time : Option ℚ) (relayTs : Option Nat)
  | loadVideoCb (videoId : Option String)
  | sentEvt (action : String) (time : ℚ) (timestamp : Nat)
  | connectAttempt
deriving DecidableEq

/-- Events driving one hook instance: transport open, an inbound message
(`none` = unparsable), transport close, the two timer callbacks firing, a
local `sendSyncEvent(action, time)` call, and a manual `disconnect()`. -/
inductive HookEvent where
  | wsOpenEvt
  | wsMessage (parsed : Option ClientMsg) (now : Nat)
  | wsCloseEvt (now : Nat)
  | applyClearFires
  | reconnectFires
  | sendEvt (action : String) (time : ℚ) (now : Nat)
  | disconnectCall
deriving DecidableEq

/-- The hook's `ws.onmessage` handler: parse failures are caught and
dropped; a CONNECTED message is only logged; a LOAD_VIDEO message invokes
the `onVideoIdSync` callback with `data.videoId`; a PLAY/PAUSE/SEEK message
sets `isApplyingRemoteChangeRef`, schedules its reset 100 ms later, and
invokes `onSyncEvent(data.action, data.time, data.timestamp)`; anything
else is ignored. -/
def hookOnMessage (s : HookState) (parsed : Option ClientMsg) (now : Nat) :
    HookState × List HookOut :=
  match parsed with
  | none => (s, [])
  | some d =>
    if d.type? = some "CONNECTED" then (s, [])
    else if d.type? = some "LOAD_VIDEO" then (s, [HookOut.loadVideoCb d.videoId?])
    else
      match d.action? with
      | some a =>
        if a = "PLAY" ∨ a = "PAUSE" ∨ a = "SEEK" then
          ({ s with isApplyingRemoteChange := true, applyClearAt := some (now + 100) },
            [HookOut.applySyncCb a d.time? d.timestamp?])
        else (s, [])
      | none => (s, [])

/-- One hook event handled, following the source handlers:
`onopen` sets status connected and clears a pending reconnect timeout;
`onclose` sets status disconnected and — only for role "client" with a
non-empty host IP — schedules `connect()` 3000 ms later (the handler has no
way to tell a manual close from an unsolicited one); the flag-clear timeout
resets `isApplyingRemoteChangeRef`; the reconnect timeout fires `connect()`;
`sendSyncEvent` drops the event while `isApplyingRemoteChangeRef` is set and
otherwise sends `{action, time, timestamp: Date.now()}` when the socket is
OPEN; `disconnect()` clears the pending reconnect timeout, calls `close()`
on the socket (whose `onclose` handler stays attached and will still fire)
and nulls `wsRef`. -/
def hookStep (cfg : HookCfg) (s : HookState) : HookEvent → HookState × List HookOut
  | HookEvent.wsOpenEvt =>
      ({ s with connectionStatus := "connected", wsOpen := true, reconnectAt := none }, [])
  | HookEvent.wsMessage parsed now => hookOnMessage s parsed now
  | HookEvent.wsCloseEvt now =>
      if s.socketExists then
        ({ s with
            connectionStatus := "disconnected"
            socketExists := false
            wsOpen := false
            reconnectAt :=
              (if cfg.role = some "client" ∧ cfg.hostIp ≠ "" then some (now + 3000)
               else s.reconnectAt) }, [])
      else (s, [])
  | HookEvent.applyClearFires =>
      if s.applyClearAt.isSome then
        ({ s with isApplyingRemoteChange := false, applyClearAt := none }, [])
      else (s, [])
  | HookEvent.reconnectFires =>
      if s.reconnectAt.isSome then
        ({ s with reconnectAt := none }, [HookOut.connectAttempt])
      else (s, [])
  | HookEvent.sendEvt a t now =>
      if s.isApplyingRemoteChange then (s, [])
      else if s.wsOpen then (s, [HookOut.sentEvt a t now]) else (s, [])
  | HookEvent.disconnectCall =>
      ({ s with reconnectAt := none, wsOpen := false, connectionStatus := "disconnected" }, [])

/-- Dial-out configuration used in concrete scenarios: a client endpoint
with a configured host IP. -/
def c5cfg : HookCfg := HookCfg.mk (some "client") "192.168.1.100"

/-- A connected hook state: socket exists and is OPEN, no suppression flag,
no pending timers. -/
def c5connected : HookState := HookState.mk "connected" true true false none none

/-- The hook state right after a manual `disconnect()` call. -/
def c5afterDisconnect : HookState :=
  (hookStep c5cfg c5connected HookEvent.disconnectCall).1

/-- The hook state after the manually closed socket's `onclose` handler
fires at t = 5000 ms. -/
def c5afterClose : HookState :=
  (hookStep c5cfg c5afterDisconnect (HookEvent.wsCloseEvt 5000)).1

/-- App state with role host, connected, playing flag true, but no video id
loaded (reachable: a playing client switches role to host and reconnects --
`selectRole` resets the video id but not the playing flag). -/
def c6app : AppState := AppState.mk (some "host") true true "" ""

/-- A ready backend in state PLAYING at 10 s. -/
def c6player : PlayerModel := PlayerModel.mk true true 10 1

/-- App state with role host, connected, playing, and a loaded video. -/
def c6appFull : AppState := AppState.mk (some "host") true true "abc" "abc"

/-- A ready backend in state PLAYING at 12.5 s. -/
def c6playerPlaying : PlayerModel := PlayerModel.mk true true 12.5 1

/-- App state of a client with video "abc" loaded and playing. -/
def c7app : AppState := AppState.mk (some "client") true true "abc" "abc"

/-- App state of a connected client with no video loaded yet. -/
def c7appBlank : AppState := AppState.mk (some "client") true false "" ""

lemma countP_id_unique (l : List Conn) (hn : (l.map Conn.id).Nodup) (c : Conn)
    (hc : c ∈ l) (q : Conn → Bool) :
    l.countP (fun x => decide (x.id = c.id) && q x) = if q c then 1 else 0 := by
  induction l with
  | nil => cases hc
  | cons x xs ih =>
    simp only [List.map_cons, List.nodup_cons] at hn
    obtain ⟨hx, hn'⟩ := hn
    rw [List.countP_cons]
    rcases List.mem_cons.mp hc with hcx | hcs
    · have hcid : c.id = x.id := by rw [hcx]
      have hzero : xs.countP (fun y => decide (y.id = c.id) && q y) = 0 := by
        refine List.countP_eq_zero.mpr ?_
        intro a ha
        have hne : a.id ≠ c.id := by
          intro h
          exact hx ((hcid ▸ h) ▸ List.mem_map_of_mem Conn.id ha)
        simp [hne]
      rw [hzero]
      simp [hcid, hcx]
    · have hne : x.id ≠ c.id := by
        intro h
        exact hx (h ▸ List.mem_map_of_mem Conn.id hcs)
      rw [ih hn' hcs]
      simp [hne]

lemma countP_id_zero (l : List Conn) (i : Nat) (q : Conn → Bool)
    (h : ∀ x ∈ l, x.id = i → q x = false) :
    l.countP (fun x => decide (x.id = i) && q x) = 0 := by
  refine List.countP_eq_zero.mpr ?_
  intro a ha
  simp only [Bool.and_eq_true, decide_eq_true_eq, not_and]
  intro h1
  simp [h a ha h1]

lemma countSendsTo_map (targets : List Conn) (M : ServerMsg) (i : Nat) :
    countSendsTo (targets.map (fun c => (c.id, M))) i
      = targets.countP (fun c => decide (c.id = i)) := by
  unfold countSendsTo
  rw [List.countP_map]
  rfl

lemma countP_broadcastTargets (clients : List Conn) (sender i : Nat) :
    (broadcastTargets clients sender).countP (fun c => decide (c.id = i))
      = clients.countP
          (fun c => decide (c.id = i) &&
            decide (c.id ≠ sender ∧ c.readyState = ReadyState.OPEN)) := by
  unfold broadcastTargets
  rw [List.countP_filter]

lemma handleData_load (clients : List Conn) (sender : Nat) (data : WireData) (now : Nat)
    (h : data.type? = some "LOAD_VIDEO") :
    handleData clients sender data now
      = (broadcastTargets clients sender).map
          (fun c => (c.id, ServerMsg.LOAD_VIDEO data.videoId? now)) := by
  simp [handleData, h]

lemma handleData_action (clients : List Conn) (sender : Nat) (data : WireData) (now : Nat)
    (a : String) (hnl : data.type? ≠ some "LOAD_VIDEO") (ha : data.action? = some a)
    (hv : a = "PLAY" ∨ a = "PAUSE" ∨ a = "SEEK") :
    handleData clients sender data now
      = (broadcastTargets clients sender).map
          (fun c => (c.id, ServerMsg.PLAYBACK a data.time? now)) := by
  rcases hv with h1 | h1 | h1 <;> simp [handleData, hnl, ha, h1]

/-- C1: a Session Load or valid Playback Action received by the relay from
connection `sender` is sent exactly once to every registered OPEN connection
other than the sender, never back to the sender, and every copy carries the
relay's own current timestamp `now` (substituted for the origin timestamp)
with the payload otherwise preserved. -/
theorem relay_broadcast_exactly_once
    (clients : List Conn) (sender now : Nat) (d : WireData)
    (hnodup : (clients.map Conn.id).Nodup)
    (hmsg : d.type? = some "LOAD_VIDEO" ∨
      (d.type? ≠ some "LOAD_VIDEO" ∧
        ∃ a, d.action? = some a ∧ (a = "PLAY" ∨ a = "PAUSE" ∨ a = "SEEK"))) :
    (∀ c ∈ clients, c.id ≠ sender → c.readyState = ReadyState.OPEN →
        countSendsTo (handleMessage clients sender (some d) now) c.id = 1)
    ∧ countSendsTo (handleMessage clients sender (some d) now) sender = 0
    ∧ (d.type? = some "LOAD_VIDEO" →
        ∀ m ∈ handleMessage clients sender (some d) now,
          m.2 = ServerMsg.LOAD_VIDEO d.videoId? now)
    ∧ (∀ a, d.type? ≠ some "LOAD_VIDEO" → d.action? = some a →
        ∀ m ∈ handleMessage clients sender (some d) now,
          m.2 = ServerMsg.PLAYBACK a d.time? now) := by
  have hmm : handleMessage clients sender (some d) now = handleData clients sender d now := rfl
  have key : ∃ M : ServerMsg,
      handleData clients sender d now
        = (broadcastTargets clients sender).map (fun c => (c.id, M)) := by
    rcases hmsg with hload | ⟨hnl, a, ha, hv⟩
    · exact ⟨_, handleData_load clients sender d now hload⟩
    · exact ⟨_, handleData_action clients sender d now a hnl ha hv⟩
  obtain ⟨M, hM⟩ := key
  refine ⟨?_, ?_, ?_, ?_⟩
  · intro c hc hcs hco
    rw [hmm, hM, countSendsTo_map, countP_broadcastTargets,
      countP_id_unique clients hnodup c hc]
    simp [hcs, hco]
  · rw [hmm, hM, countSendsTo_map, countP_broadcastTargets]
    apply countP_id_zero
    intro x hx hxi
    simp [hxi]
  · intro hload m hm
    rw [hmm, handleData_load clients sender d now hload] at hm
    obtain ⟨c, hc, rfl⟩ := List.mem_map.mp hm
    rfl
  · intro a hnl ha m hm
    rcases hmsg with hload | ⟨hnl1, a1, ha1, hv1⟩
    · exact absurd hload hnl
    · have haa : a1 = a := by
        rw [ha] at ha1
        exact (Option.some_inj.mp ha1).symm
      subst haa
      rw [hmm, handleData_action clients sender d now a1 hnl ha hv1] at hm
      obtain ⟨c, hc, rfl⟩ := List.mem_map.mp hm
      rfl

/-- Witness for C1: three open connections 1,2,3; connection 1 sends a PLAY
action; 2 and 3 each receive exactly one relay-stamped copy, 1 receives
none. -/
theorem relay_broadcast_exactly_once_witness :
    (∀ c ∈ [Conn.mk 1 ReadyState.OPEN, Conn.mk 2 ReadyState.OPEN, Conn.mk 3 ReadyState.OPEN],
        c.id ≠ 1 → c.readyState = ReadyState.OPEN →
        countSendsTo
          (handleMessage
            [Conn.mk 1 ReadyState.OPEN, Conn.mk 2 ReadyState.OPEN, Conn.mk 3 ReadyState.OPEN] 1
            (some (WireData.mk none none (some "PLAY") (some 5) (some 7))) 42) c.id = 1)
    ∧ countSendsTo
        (handleMessage
          [Conn.mk 1 ReadyState.OPEN, Conn.mk 2 ReadyState.OPEN, Conn.mk 3 ReadyState.OPEN] 1
          (some (WireData.mk none none (some "PLAY") (some 5) (some 7))) 42) 1 = 0
    ∧ ((WireData.mk none none (some "PLAY") (some 5) (some 7)).type? = some "LOAD_VIDEO" →
        ∀ m ∈ handleMessage
            [Conn.mk 1 ReadyState.OPEN, Conn.mk 2 ReadyState.OPEN, Conn.mk 3 ReadyState.OPEN] 1
            (some (WireData.mk none none (some "PLAY") (some 5) (some 7))) 42,
          m.2 = ServerMsg.LOAD_VIDEO none 42)
    ∧ (∀ a, (WireData.mk none none (some "PLAY") (some 5) (some 7)).type? ≠ some "LOAD_VIDEO" →
        (WireData.mk none none (some "PLAY") (some 5) (some 7)).action? = some a →
        ∀ m ∈ handleMessage
            [Conn.mk 1 ReadyState.OPEN, Conn.mk 2 ReadyState.OPEN, Conn.mk 3 ReadyState.OPEN] 1
            (some (WireData.mk none none (some "PLAY") (some 5) (some 7))) 42,
          m.2 = ServerMsg.PLAYBACK a (some 5) 42) :=
  relay_broadcast_exactly_once
    [Conn.mk 1 ReadyState.OPEN, Conn.mk 2 ReadyState.OPEN, Conn.mk 3 ReadyState.OPEN] 1 42
    (WireData.mk none none (some "PLAY") (some 5) (some 7))
    (by decide)
    (Or.inr ⟨by decide, "PLAY", rfl, Or.inl rfl⟩)

lemma mem_broadcastTargets (clients : List Conn) (sender : Nat) (c : Conn)
    (hc : c ∈ broadcastTargets clients sender) :
    c ∈ clients ∧ c.id ≠ sender ∧ c.readyState = ReadyState.OPEN := by
  have h := List.mem_filter.mp hc
  simpa using h

lemma handleData_sends_ids (clients : List Conn) (sender : Nat) (d : WireData) (now : Nat) :
    ∀ m ∈ handleData clients sender d now,
      ∃ c ∈ broadcastTargets clients sender, m.1 = c.id := by
  intro m hm
  by_cases h : d.type? = some "LOAD_VIDEO"
  · rw [handleData_load clients sender d now h] at hm
    obtain ⟨c, hc, rfl⟩ := List.mem_map.mp hm
    exact ⟨c, hc, rfl⟩
  · cases ha : d.action? with
    | none => simp [handleData, h, ha] at hm
    | some a =>
      by_cases hv : a = "PLAY" ∨ a = "PAUSE" ∨ a = "SEEK"
      · rw [handleData_action clients sender d now a h ha hv] at hm
        obtain ⟨c, hc, rfl⟩ := List.mem_map.mp hm
        exact ⟨c, hc, rfl⟩
      · simp [handleData, h, ha, hv] at hm

/-- C10: when an inbound message has type LOAD_VIDEO, the handler broadcasts
it only as a Session Load and returns -- every send is a LOAD_VIDEO message,
each registered connection receives at most one send, and this holds in
particular when the same message also carries a valid action field. -/
theorem load_branch_precedence
    (clients : List Conn) (sender now : Nat) (d : WireData)
    (hnodup : (clients.map Conn.id).Nodup)
    (hload : d.type? = some "LOAD_VIDEO") :
    (∀ m ∈ handleMessage clients sender (some d) now,
        m.2 = ServerMsg.LOAD_VIDEO d.videoId? now)
    ∧ (∀ c ∈ clients, countSendsTo (handleMessage clients sender (some d) now) c.id ≤ 1) := by
  have hmm : handleMessage clients sender (some d) now = handleData clients sender d now := rfl
  constructor
  · intro m hm
    rw [hmm, handleData_load clients sender d now hload] at hm
    obtain ⟨c, hc, rfl⟩ := List.mem_map.mp hm
    rfl
  · intro c hc
    rw [hmm, handleData_load clients sender d now hload, countSendsTo_map,
      countP_broadcastTargets, countP_id_unique clients hnodup c hc]
    split <;> simp

/-- Witness for C10: a message carrying both type LOAD_VIDEO and a valid
PLAY action field is broadcast once per peer, as a Session Load only. -/
theorem load_branch_precedence_witness :
    (∀ m ∈ handleMessage [Conn.mk 0 ReadyState.OPEN, Conn.mk 1 ReadyState.OPEN] 0
        (some (WireData.mk (some "LOAD_VIDEO") (some "abc") (some "PLAY") (some 3) none)) 9,
        m.2 = ServerMsg.LOAD_VIDEO (some "abc") 9)
    ∧ (∀ c ∈ [Conn.mk 0 ReadyState.OPEN, Conn.mk 1 ReadyState.OPEN],
        countSendsTo
          (handleMessage [Conn.mk 0 ReadyState.OPEN, Conn.mk 1 ReadyState.OPEN] 0
            (some (WireData.mk (some "LOAD_VIDEO") (some "abc") (some "PLAY") (some 3) none)) 9)
          c.id ≤ 1) :=
  load_branch_precedence [Conn.mk 0 ReadyState.OPEN, Conn.mk 1 ReadyState.OPEN] 0 9
    (WireData.mk (some "LOAD_VIDEO") (some "abc") (some "PLAY") (some 3) none)
    (by decide) rfl

/-- C8 counterexample: a Playback Action whose position is the negative
number -5 -- schema-violating per the claim, hence supposedly dropped -- is
in fact broadcast unchanged by the relay: position is never validated. -/
theorem relay_broadcasts_negative_position :
    handleMessage [Conn.mk 0 ReadyState.OPEN, Conn.mk 1 ReadyState.OPEN] 0
        (some (WireData.mk none none (some "SEEK") (some (-5)) none)) 1000
      = [(1, ServerMsg.PLAYBACK "SEEK" (some (-5)) 1000)]
    ∧ handleMessage [Conn.mk 0 ReadyState.OPEN, Conn.mk 1 ReadyState.OPEN] 0
        (some (WireData.mk none none (some "SEEK") (some (-5)) none)) 1000
      ≠ [] := by
  decide

/-- C8 (amended): the relay broadcasts an inbound message iff it parses and
either its type is LOAD_VIDEO or its action is PLAY/PAUSE/SEEK -- the
position field is never validated; all other inbound messages are dropped
with no send to the sender (no error reply) and with the connection registry
untouched (no disconnect); an error is logged exactly on parse failure. -/
theorem relay_validation_amended
    (clients : List Conn) (sender now : Nat) (parsed : Option WireData) (other : Conn)
    (hother : other ∈ clients) (hoid : other.id ≠ sender)
    (hopen : other.readyState = ReadyState.OPEN) :
    (relayStep clients (RelayEvent.MESSAGE sender parsed now)).1 = clients
    ∧ (∀ m ∈ (relayStep clients (RelayEvent.MESSAGE sender parsed now)).2, m.1 ≠ sender)
    ∧ ((relayStep clients (RelayEvent.MESSAGE sender parsed now)).2 ≠ [] ↔
        ∃ d, parsed = some d ∧
          (d.type? = some "LOAD_VIDEO" ∨
            ∃ a, d.action? = some a ∧ (a = "PLAY" ∨ a = "PAUSE" ∨ a = "SEEK")))
    ∧ (parseErrorLogged parsed = true ↔ parsed = none) := by
  refine ⟨rfl, ?_, ?_, ?_⟩
  · intro m hm
    cases parsed with
    | none => simp [relayStep, handleMessage] at hm
    | some d =>
      obtain ⟨c, hc, hid⟩ := handleData_sends_ids clients sender d now m hm
      obtain ⟨hmem, hne, hop⟩ := mem_broadcastTargets clients sender c hc
      rw [hid]
      exact hne
  · constructor
    · intro hne
      cases hp : parsed with
      | none =>
        rw [hp] at hne
        exact absurd rfl hne
      | some d =>
        rw [hp] at hne
        refine ⟨d, rfl, ?_⟩
        by_cases h : d.type? = some "LOAD_VIDEO"
        · exact Or.inl h
        · cases ha : d.action? with
          | none =>
            exfalso
            apply hne
            show handleData clients sender d now = []
            simp [handleData, h, ha]
          | some a =>
            by_cases hv : a = "PLAY" ∨ a = "PAUSE" ∨ a = "SEEK"
            · exact Or.inr ⟨a, rfl, hv⟩
            · exfalso
              apply hne
              show handleData clients sender d now = []
              simp [handleData, h, ha, hv]
    · rintro ⟨d, hp, hd⟩
      subst hp
      have hmem : other ∈ broadcastTargets clients sender :=
        List.mem_filter.mpr ⟨hother, by simp [hoid, hopen]⟩
      have hbne : broadcastTargets clients sender ≠ [] := List.ne_nil_of_mem hmem
      rcases hd with hload | ⟨a, ha, hv⟩
      · show handleData clients sender d now ≠ []
        rw [handleData_load clients sender d now hload]
        simpa using hbne
      · show handleData clients sender d now ≠ []
        by_cases h : d.type? = some "LOAD_VIDEO"
        · rw [handleData_load clients sender d now h]
          simpa using hbne
        · rw [handleData_action clients sender d now a h ha hv]
          simpa using hbne
  · cases parsed <;> simp [parseErrorLogged]

/-- Witness for C8 (amended): an unparsable inbound message with peers 0
(sender) and 1 (open): nothing is broadcast, the registry is untouched, no
reply goes to the sender, and the parse error is logged. -/
theorem relay_validation_amended_witness :
    (relayStep [Conn.mk 0 ReadyState.OPEN, Conn.mk 1 ReadyState.OPEN]
        (RelayEvent.MESSAGE 0 none 77)).1
      = [Conn.mk 0 ReadyState.OPEN, Conn.mk 1 ReadyState.OPEN]
    ∧ (∀ m ∈ (relayStep [Conn.mk 0 ReadyState.OPEN, Conn.mk 1 ReadyState.OPEN]
        (RelayEvent.MESSAGE 0 none 77)).2, m.1 ≠ 0)
    ∧ ((relayStep [Conn.mk 0 ReadyState.OPEN, Conn.mk 1 ReadyState.OPEN]
          (RelayEvent.MESSAGE 0 none 77)).2 ≠ [] ↔
        ∃ d, (none : Option WireData) = some d ∧
          (d.type? = some "LOAD_VIDEO" ∨
            ∃ a, d.action? = some a ∧ (a = "PLAY" ∨ a = "PAUSE" ∨ a = "SEEK")))
    ∧ (parseErrorLogged none = true ↔ (none : Option WireData) = none) :=
  relay_validation_amended [Conn.mk 0 ReadyState.OPEN, Conn.mk 1 ReadyState.OPEN] 0 77 none
    (Conn.mk 1 ReadyState.OPEN) (by decide) (by decide) rfl

lemma syncPlayer_ready_cmds (pl : PlayerModel) (action : String) (time : ℚ)
    (ts? : Option Nat) (now : Nat) (h1 : pl.hasPlayer = true) (h2 : pl.isReady = true) :
    (syncPlayer pl action time ts? now).cmds =
      (if seekThresholdFor action < |compensatedTime time ts? now - pl.currentTime| then
        [BackendCmd.seekTo (compensatedTime time ts? now)]
      else []) ++ actionCmds action := by
  simp [syncPlayer, h1, h2]

lemma seekTo_not_mem_actionCmds (x : ℚ) (a : String) :
    BackendCmd.seekTo x ∉ actionCmds a := by
  unfold actionCmds
  split_ifs <;> simp

/-- C2: for a ready backend, `syncPlayer` issues a seek to the compensated
time exactly when the absolute difference to the current backend position
strictly exceeds the threshold (0.4 s for SEEK, 0.1 s for PLAY and PAUSE);
at or below threshold no seek happens and a SEEK action is a complete no-op,
while PLAY still invokes play and PAUSE still invokes pause. -/
theorem seek_threshold_correct (pl : PlayerModel) (a : String) (t : ℚ)
    (ts? : Option Nat) (now : Nat)
    (h1 : pl.hasPlayer = true) (h2 : pl.isReady = true)
    (ha : a = "PLAY" ∨ a = "PAUSE" ∨ a = "SEEK") :
    (BackendCmd.seekTo (compensatedTime t ts? now) ∈ (syncPlayer pl a t ts? now).cmds ↔
      seekThresholdFor a < |compensatedTime t ts? now - pl.currentTime|)
    ∧ (seekThresholdFor a < |compensatedTime t ts? now - pl.currentTime| →
        (syncPlayer pl a t ts? now).cmds
          = BackendCmd.seekTo (compensatedTime t ts? now) :: actionCmds a)
    ∧ (|compensatedTime t ts? now - pl.currentTime| ≤ seekThresholdFor a →
        (syncPlayer pl a t ts? now).cmds = actionCmds a)
    ∧ (a = "SEEK" → seekThresholdFor a = 0.4)
    ∧ (a ≠ "SEEK" → seekThresholdFor a = 0.1)
    ∧ (a = "PLAY" → BackendCmd.playVideo ∈ (syncPlayer pl a t ts? now).cmds)
    ∧ (a = "PAUSE" → BackendCmd.pauseVideo ∈ (syncPlayer pl a t ts? now).cmds)
    ∧ (a = "SEEK" → |compensatedTime t ts? now - pl.currentTime| ≤ seekThresholdFor a →
        (syncPlayer pl a t ts? now).cmds = []) := by
  have hc := syncPlayer_ready_cmds pl a t ts? now h1 h2
  refine ⟨?_, ?_, ?_, ?_, ?_, ?_, ?_, ?_⟩
  · rw [hc]
    by_cases hlt : seekThresholdFor a < |compensatedTime t ts? now - pl.currentTime|
    · simp [hlt]
    · simp [hlt, seekTo_not_mem_actionCmds]
  · intro hlt
    rw [hc, if_pos hlt]
    rfl
  · intro hle
    rw [hc, if_neg (not_lt.mpr hle)]
    rfl
  · intro h
    simp [seekThresholdFor, h]
  · intro h
    simp [seekThresholdFor, h]
  · intro h
    subst h
    rw [hc]
    simp [actionCmds]
  · intro h
    subst h
    rw [hc]
    simp [actionCmds]
  · intro h hle
    subst h
    rw [hc, if_neg (not_lt.mpr hle)]
    simp [actionCmds]

/-- Witness for C2: backend at 10.00 s, remote PAUSE at compensated 10.20 s
(difference 0.20 > 0.1): a seek is issued and pause is still invoked. -/
theorem seek_threshold_correct_witness :
    (BackendCmd.seekTo (compensatedTime 10.2 none 0)
        ∈ (syncPlayer (PlayerModel.mk true true 10 2) "PAUSE" 10.2 none 0).cmds ↔
      seekThresholdFor "PAUSE"
        < |compensatedTime 10.2 none 0 - (PlayerModel.mk true true 10 2).currentTime|)
    ∧ (seekThresholdFor "PAUSE"
          < |compensatedTime 10.2 none 0 - (PlayerModel.mk true true 10 2).currentTime| →
        (syncPlayer (PlayerModel.mk true true 10 2) "PAUSE" 10.2 none 0).cmds
          = BackendCmd.seekTo (compensatedTime 10.2 none 0) :: actionCmds "PAUSE")
    ∧ (|compensatedTime 10.2 none 0 - (PlayerModel.mk true true 10 2).currentTime|
          ≤ seekThresholdFor "PAUSE" →
        (syncPlayer (PlayerModel.mk true true 10 2) "PAUSE" 10.2 none 0).cmds
          = actionCmds "PAUSE")
    ∧ ("PAUSE" = "SEEK" → seekThresholdFor "PAUSE" = 0.4)
    ∧ ("PAUSE" ≠ "SEEK" → seekThresholdFor "PAUSE" = 0.1)
    ∧ ("PAUSE" = "PLAY" → BackendCmd.playVideo
        ∈ (syncPlayer (PlayerModel.mk true true 10 2) "PAUSE" 10.2 none 0).cmds)
    ∧ ("PAUSE" = "PAUSE" → BackendCmd.pauseVideo
        ∈ (syncPlayer (PlayerModel.mk true true 10 2) "PAUSE" 10.2 none 0).cmds)
    ∧ ("PAUSE" = "SEEK" →
        |compensatedTime 10.2 none 0 - (PlayerModel.mk true true 10 2).currentTime|
          ≤ seekThresholdFor "PAUSE" →
        (syncPlayer (PlayerModel.mk true true 10 2) "PAUSE" 10.2 none 0).cmds = []) :=
  seek_threshold_correct (PlayerModel.mk true true 10 2) "PAUSE" 10.2 none 0
    rfl rfl (Or.inr (Or.inl rfl))

/-- C3: with a (positive) relay timestamp `ts`, the compensated time is the
action time plus the relay-to-receiver elapsed milliseconds converted to
seconds; without one it is the raw action time; and the seek decision of
`syncPlayer` is taken on the compensated time. -/
theorem latency_compensation_correct (t : ℚ) (ts now : Nat) (h : 0 < ts)
    (pl : PlayerModel) (a : String)
    (h1 : pl.hasPlayer = true) (h2 : pl.isReady = true) :
    compensatedTime t (some ts) now = t + (((now : ℚ) - (ts : ℚ)) / 1000)
    ∧ compensatedTime t none now = t
    ∧ (BackendCmd.seekTo (compensatedTime t (some ts) now)
          ∈ (syncPlayer pl a t (some ts) now).cmds ↔
        seekThresholdFor a < |compensatedTime t (some ts) now - pl.currentTime|) := by
  have hne : ts ≠ 0 := Nat.pos_iff_ne_zero.mp h
  refine ⟨by simp [compensatedTime, hne], rfl, ?_⟩
  rw [syncPlayer_ready_cmds pl a t (some ts) now h1 h2]
  by_cases hlt : seekThresholdFor a < |compensatedTime t (some ts) now - pl.currentTime|
  · simp [hlt]
  · simp [hlt, seekTo_not_mem_actionCmds]

/-- Witness for C3: action time 10 s, relay timestamp 500 ms, local clock
700 ms: compensated time is 10 + 200/1000 = 10.2 s. -/
theorem latency_compensation_correct_witness :
    (compensatedTime 10 (some 500) 700 = 10 + (((700 : ℚ) - (500 : ℚ)) / 1000)
      ∧ compensatedTime 10 none 700 = 10
      ∧ (BackendCmd.seekTo (compensatedTime 10 (some 500) 700)
            ∈ (syncPlayer (PlayerModel.mk true true 10 1) "SEEK" 10 (some 500) 700).cmds ↔
          seekThresholdFor "SEEK"
            < |compensatedTime 10 (some 500) 700
                - (PlayerModel.mk true true 10 1).currentTime|))
    ∧ compensatedTime 10 (some 500) 700 = 10.2 :=
  ⟨latency_compensation_correct 10 500 700 (by decide)
      (PlayerModel.mk true true 10 1) "SEEK" rfl rfl,
    by simp [compensatedTime]; norm_num⟩

/-- C9: when the playback backend is missing or not ready, a remote apply
(`syncPlayer`) issues no backend call, only warns, does not set the sync
flag and schedules nothing (so nothing is retried), and a drift tick emits
no sync event either; both simply return. -/
theorem backend_not_ready_noop (pl : PlayerModel) (a : String) (t : ℚ)
    (ts? : Option Nat) (now : Nat)
    (h : pl.hasPlayer = false ∨ pl.isReady = false) :
    (syncPlayer pl a t ts? now).cmds = []
    ∧ (syncPlayer pl a t ts? now).warnedNotReady = true
    ∧ (syncPlayer pl a t ts? now).setSyncFlag = false
    ∧ (syncPlayer pl a t ts? now).clearSyncFlagAt = none
    ∧ periodicTick pl = [] := by
  rcases h with h | h
  · simp [syncPlayer, periodicTick, h]
  · cases hp : pl.hasPlayer <;> simp [syncPlayer, periodicTick, h, hp]

/-- Witness for C9: no player object yet (backend uninitialized): the apply
and the drift tick are no-ops that warn. -/
theorem backend_not_ready_noop_witness :
    (syncPlayer (PlayerModel.mk false false 0 (-1)) "PLAY" 3 (some 9) 10).cmds = []
    ∧ (syncPlayer (PlayerModel.mk false false 0 (-1)) "PLAY" 3 (some 9) 10).warnedNotReady = true
    ∧ (syncPlayer (PlayerModel.mk false false 0 (-1)) "PLAY" 3 (some 9) 10).setSyncFlag = false
    ∧ (syncPlayer (PlayerModel.mk false false 0 (-1)) "PLAY" 3 (some 9) 10).clearSyncFlagAt = none
    ∧ periodicTick (PlayerModel.mk false false 0 (-1)) = [] :=
  backend_not_ready_noop (PlayerModel.mk false false 0 (-1)) "PLAY" 3 (some 9) 10
    (Or.inl rfl)

lemma periodicSyncCond_iff (app : AppState) (pl : PlayerModel) :
    periodicSyncCond app pl = true ↔
      (app.role = some "host" ∧ app.isConnected = true ∧ app.isPlaying = true
        ∧ app.videoId ≠ "" ∧ pl.hasPlayer = true ∧ pl.isReady = true) := by
  simp [periodicSyncCond, Bool.and_eq_true, decide_eq_true_eq, and_assoc]

lemma periodicSyncEffectRun_ne_iff (app : AppState) (pl : PlayerModel) (prev : List Nat) :
    periodicSyncEffectRun app pl prev ≠ [] ↔ periodicSyncCond app pl = true := by
  unfold periodicSyncEffectRun
  split <;> simp_all

lemma periodicTick_eq (pl : PlayerModel) :
    periodicTick pl =
      (if pl.hasPlayer = true ∧ pl.isReady = true ∧ pl.playerState = 1 then
        [("SEEK", pl.currentTime)]
      else []) := by
  unfold periodicTick
  by_cases h1 : pl.hasPlayer = true
  · by_cases h2 : pl.isReady = true
    · by_cases h3 : pl.playerState = 1 <;> simp [h1, h2, h3]
    · simp [h1, h2]
  · simp [h1]

/-- C4: receiving a Playback Action sets the transport-layer suppression
flag and schedules its reset 100 ms later; any `sendSyncEvent` made while
the flag is set produces no send and changes nothing; the scheduled timeout
clears the flag. -/
theorem echo_suppression_window (cfg : HookCfg) (s₁ s₂ s₃ : HookState)
    (d : ClientMsg) (a b : String) (t₂ : ℚ) (now now₂ : Nat)
    (hty1 : d.type? ≠ some "CONNECTED") (hty2 : d.type? ≠ some "LOAD_VIDEO")
    (hact : d.action? = some a) (hval : a = "PLAY" ∨ a = "PAUSE" ∨ a = "SEEK")
    (hflag : s₂.isApplyingRemoteChange = true)
    (hdl : s₃.applyClearAt.isSome = true) :
    (hookStep cfg s₁ (HookEvent.wsMessage (some d) now)).1.isApplyingRemoteChange = true
    ∧ (hookStep cfg s₁ (HookEvent.wsMessage (some d) now)).1.applyClearAt = some (now + 100)
    ∧ (hookStep cfg s₂ (HookEvent.sendEvt b t₂ now₂)).2 = []
    ∧ (hookStep cfg s₂ (HookEvent.sendEvt b t₂ now₂)).1 = s₂
    ∧ (hookStep cfg s₃ HookEvent.applyClearFires).1.isApplyingRemoteChange = false := by
  have hmsg : hookStep cfg s₁ (HookEvent.wsMessage (some d) now)
      = hookOnMessage s₁ (some d) now := rfl
  refine ⟨?_, ?_, ?_, ?_, ?_⟩
  · rw [hmsg]
    rcases hval with h | h | h <;> simp [hookOnMessage, hty1, hty2, hact, h]
  · rw [hmsg]
    rcases hval with h | h | h <;> simp [hookOnMessage, hty1, hty2, hact, h]
  · simp [hookStep, hflag]
  · simp [hookStep, hflag]
  · simp [hookStep, hdl]

/-- Witness for C4: a remote PLAY sets the flag and schedules the 100 ms
clear; with the flag set, a local send of PLAY at 3 s is dropped. -/
theorem echo_suppression_window_witness :
    (hookStep (HookCfg.mk (some "client") "10.0.0.2")
        (HookState.mk "connected" true true false none none)
        (HookEvent.wsMessage
          (some (ClientMsg.mk none none (some "PLAY") (some 3) (some 9))) 200)).1.isApplyingRemoteChange
      = true
    ∧ (hookStep (HookCfg.mk (some "client") "10.0.0.2")
        (HookState.mk "connected" true true false none none)
        (HookEvent.wsMessage
          (some (ClientMsg.mk none none (some "PLAY") (some 3) (some 9))) 200)).1.applyClearAt
      = some (200 + 100)
    ∧ (hookStep (HookCfg.mk (some "client") "10.0.0.2")
        (HookState.mk "connected" true true true (some 300) none)
        (HookEvent.sendEvt "PLAY" 3 250)).2 = []
    ∧ (hookStep (HookCfg.mk (some "client") "10.0.0.2")
        (HookState.mk "connected" true true true (some 300) none)
        (HookEvent.sendEvt "PLAY" 3 250)).1
      = HookState.mk "connected" true true true (some 300) none
    ∧ (hookStep (HookCfg.mk (some "client") "10.0.0.2")
        (HookState.mk "connected" true true true (some 300) none)
        HookEvent.applyClearFires).1.isApplyingRemoteChange = false :=
  echo_suppression_window (HookCfg.mk (some "client") "10.0.0.2")
    (HookState.mk "connected" true true false none none)
    (HookState.mk "connected" true true true (some 300) none)
    (HookState.mk "connected" true true true (some 300) none)
    (ClientMsg.mk none none (some "PLAY") (some 3) (some 9))
    "PLAY" "PLAY" 3 200 250
    (by decide) (by decide) rfl (Or.inl rfl) rfl rfl

/-- C5 (code evaluation at the failing input): a dial-out client (role
"client", host IP configured) in connected state performs a manual
`disconnect()`: the pending reconnect is cleared, but the `onclose` handler
of the manually closed socket then fires and schedules a fresh reconnect
3000 ms later, whose timer invokes `connect()` -- an automatic reconnect
attempt after a manual disconnect. -/
theorem manual_disconnect_schedules_reconnect :
    c5afterDisconnect.reconnectAt = none
    ∧ c5afterClose.reconnectAt = some (5000 + 3000)
    ∧ (hookStep c5cfg c5afterClose HookEvent.reconnectFires).2 = [HookOut.connectAttempt] := by
  decide

/-- C6 counterexample: in a reachable App state with role host, connected
and the playing flag true (but no video id loaded), the periodic-sync
effect installs no timer, so no periodic SEEK is ever emitted; moreover
even with a running timer the tick emits nothing while the backend reports
state 3 (buffering) despite the playing flag being true. -/
theorem drift_timer_gap_counterexample :
    c6app.role = some "host" ∧ c6app.isConnected = true ∧ c6app.isPlaying = true
    ∧ periodicSyncEffectRun c6app c6player [] = []
    ∧ periodicTick (PlayerModel.mk true true 10 3) = [] := by
  decide

/-- C6 (amended): the periodic drift timer (3 s interval) runs iff role is
host, connected, playing flag true, a video id is loaded, and the backend
is attached and ready; at most one timer instance survives an effect run;
a tick emits exactly one SEEK carrying the backend's current position, and
only when the backend is attached, ready and reports PLAYING (state 1);
with the playing flag false no timer runs. -/
theorem drift_timer_amended (app : AppState) (pl : PlayerModel) (prev : List Nat) :
    (periodicSyncEffectRun app pl prev).length ≤ 1
    ∧ (periodicSyncEffectRun app pl prev ≠ [] ↔
        (app.role = some "host" ∧ app.isConnected = true ∧ app.isPlaying = true
          ∧ app.videoId ≠ "" ∧ pl.hasPlayer = true ∧ pl.isReady = true))
    ∧ (periodicSyncEffectRun app pl prev ≠ [] → periodicSyncEffectRun app pl prev = [3000])
    ∧ (periodicTick pl ≠ [] ↔
        (pl.hasPlayer = true ∧ pl.isReady = true ∧ pl.playerState = 1))
    ∧ (periodicTick pl ≠ [] → periodicTick pl = [("SEEK", pl.currentTime)])
    ∧ (app.isPlaying = false → periodicSyncEffectRun app pl prev = []) := by
  refine ⟨?_, ?_, ?_, ?_, ?_, ?_⟩
  · unfold periodicSyncEffectRun
    split <;> simp
  · exact (periodicSyncEffectRun_ne_iff app pl prev).trans (periodicSyncCond_iff app pl)
  · intro hne
    unfold periodicSyncEffectRun at hne ⊢
    split at hne
    · simp_all
    · simp_all
  · rw [periodicTick_eq]
    split <;> simp_all
  · intro hne
    rw [periodicTick_eq] at hne ⊢
    split at hne
    · simp_all
    · simp_all
  · intro h
    have hc : periodicSyncCond app pl = false := by
      simp [periodicSyncCond, h]
    simp [periodicSyncEffectRun, hc]

/-- Witness for C6 (amended): host playing a loaded video with a ready
backend in state PLAYING: one 3000 ms timer, tick emits one SEEK at the
current position 12.5 s. -/
theorem drift_timer_amended_witness :
    (periodicSyncEffectRun c6appFull c6playerPlaying []).length ≤ 1
    ∧ (periodicSyncEffectRun c6appFull c6playerPlaying [] ≠ [] ↔
        (c6appFull.role = some "host" ∧ c6appFull.isConnected = true
          ∧ c6appFull.isPlaying = true ∧ c6appFull.videoId ≠ ""
          ∧ c6playerPlaying.hasPlayer = true ∧ c6playerPlaying.isReady = true))
    ∧ (periodicSyncEffectRun c6appFull c6playerPlaying [] ≠ [] →
        periodicSyncEffectRun c6appFull c6playerPlaying [] = [3000])
    ∧ (periodicTick c6playerPlaying ≠ [] ↔
        (c6playerPlaying.hasPlayer = true ∧ c6playerPlaying.isReady = true
          ∧ c6playerPlaying.playerState = 1))
    ∧ (periodicTick c6playerPlaying ≠ [] →
        periodicTick c6playerPlaying = [("SEEK", c6playerPlaying.currentTime)])
    ∧ (c6appFull.isPlaying = false → periodicSyncEffectRun c6appFull c6playerPlaying [] = []) :=
  drift_timer_amended c6appFull c6playerPlaying []

/-- C7 counterexample: a received Session Load carrying the empty item id is
not applied: the state (including the loaded id "abc" and the true playing
flag) is unchanged and only a warning is produced, refuting "for every
received itemId ... forces its local playing flag to false". -/
theorem load_ignores_empty_id :
    handleVideoIdSync c7app (some "") = (c7app, true)
    ∧ (handleVideoIdSync c7app (some "")).1.isPlaying = true
    ∧ (handleVideoIdSync c7app (some "")).1.videoId = "abc" := by
  decide

/-- C7 (amended): for every non-empty received item id, the handler sets the
loaded id and the input field, forces the playing flag to false and does not
warn -- with no thresholding against the previous id -- and the video-id
load effect passes the id to the backend whenever the backend is attached
and ready; an absent id is warned about and ignored. -/
theorem load_applies_nonempty_id (app : AppState) (v : String) (pl : PlayerModel)
    (hv : v ≠ "") :
    (handleVideoIdSync app (some v)).1.videoId = v
    ∧ (handleVideoIdSync app (some v)).1.videoIdInput = v
    ∧ (handleVideoIdSync app (some v)).1.isPlaying = false
    ∧ (handleVideoIdSync app (some v)).2 = false
    ∧ (pl.isReady = true → pl.hasPlayer = true →
        videoIdLoadEffect v pl = [BackendCmd.loadVideoById v])
    ∧ handleVideoIdSync app none = (app, true) := by
  refine ⟨?_, ?_, ?_, ?_, ?_, rfl⟩
  · simp [handleVideoIdSync, hv]
  · simp [handleVideoIdSync, hv]
  · simp [handleVideoIdSync, hv]
  · simp [handleVideoIdSync, hv]
  · intro h1 h2
    simp [videoIdLoadEffect, hv, h1, h2]

/-- Witness for C7 (amended): the id "dQw4w9WgXcQ" is applied: loaded id
set, playing flag forced false, backend load issued. -/
theorem load_applies_nonempty_id_witness :
    (handleVideoIdSync c7appBlank (some "dQw4w9WgXcQ")).1.videoId = "dQw4w9WgXcQ"
    ∧ (handleVideoIdSync c7appBlank (some "dQw4w9WgXcQ")).1.videoIdInput = "dQw4w9WgXcQ"
    ∧ (handleVideoIdSync c7appBlank (some "dQw4w9WgXcQ")).1.isPlaying = false
    ∧ (handleVideoIdSync c7appBlank (some "dQw4w9WgXcQ")).2 = false
    ∧ ((PlayerModel.mk true true 0 5).isReady = true →
        (PlayerModel.mk true true 0 5).hasPlayer = true →
        videoIdLoadEffect "dQw4w9WgXcQ" (PlayerModel.mk true true 0 5)
          = [BackendCmd.loadVideoById "dQw4w9WgXcQ"])
    ∧ handleVideoIdSync c7appBlank none = (c7appBlank, true) :=
  load_applies_nonempty_id c7appBlank "dQw4w9WgXcQ" (PlayerModel.mk true true 0 5)
    (by decide)

end YoutubeSync
